import Mathlib

/-!
# Explorer++ message handlers (`Explorer++/Explorer++/MsgHandler.cpp`)

A shallow embedding of the handlers of `Explorerplusplus` that decide what is
drawn, opened, saved, closed and monitored. Calls into the Windows API and into
classes whose bodies live in other translation units are kept as parameters of
an environment record (their results) and as events of a trace (their effects);
the control flow between them is transcribed from the handler bodies.
-/

namespace Explorerplusplus

/-! ## Windows scalar types and constants -/

/-- A window handle, as the pointer-sized word it is; `NULL` is `0`. -/
abbrev HWND := Nat

/-- The `HRESULT` type of COM: a signed 32-bit status code. -/
abbrev HRESULT := Int

def S_OK : HRESULT := 0
def S_FALSE : HRESULT := 1
/-- The failure code `0x80004005` read as a signed 32-bit value. -/
def E_FAIL : HRESULT := -2147467259

/-- The `SUCCEEDED` test of winerror.h: `hr >= 0`. -/
def SUCCEEDED (hr : HRESULT) : Bool := decide (0 ≤ hr)

/-- The `FAILED` test of winerror.h: `hr < 0`. -/
def FAILED (hr : HRESULT) : Bool := decide (hr < 0)

def CDRF_NEWFONT : Nat := 0x00000002
def CDRF_NOTIFYITEMDRAW : Nat := 0x00000020
def CDDS_PREPAINT : Nat := 0x00000001
def CDDS_ITEM : Nat := 0x00010000
def CDDS_ITEMPREPAINT : Nat := CDDS_ITEM ||| CDDS_PREPAINT

/-- The conversion `static_cast<int>` applied to an unsigned pointer-sized
value: the low 32 bits read as a two's complement number. -/
def static_cast_int (n : Nat) : Int :=
  if n % 2 ^ 32 < 2 ^ 31 then ((n % 2 ^ 32 : Nat) : Int)
  else ((n % 2 ^ 32 : Nat) : Int) - 2 ^ 32

/-! ## Custom draw of listview items -/

/-- The fields of `NColorRuleHelper::ColorRule_t` that `OnCustomDraw` reads. -/
structure ColorRule where
  strFilterPattern : String
  caseInsensitive : Bool
  dwFilterAttributes : Nat
  rgbColour : Nat
  deriving DecidableEq, Repr

/-- The fields of `NMLVCUSTOMDRAW` that `OnCustomDraw` reads and writes:
`nmcd.hdr.hwndFrom`, `nmcd.dwDrawStage`, `nmcd.dwItemSpec` and `clrText`. -/
structure NMLVCUSTOMDRAW where
  hwndFrom : HWND
  dwDrawStage : Nat
  dwItemSpec : Nat
  clrText : Nat
  deriving DecidableEq, Repr

/-- What `OnCustomDraw` asks of its surroundings: the active listview, the
active shell browser's `QueryFileAttributes` and `QueryFullItemName`, the shell
helper `PathStripPath` and the wildcard matcher `CheckWildcardMatch`
(pattern, text, case-sensitive flag; a `BOOL`). -/
structure DrawEnv where
  m_hActiveListView : HWND
  QueryFileAttributes : Int → Nat
  QueryFullItemName : Int → String
  PathStripPath : String → String
  CheckWildcardMatch : String → String → Bool → Int
  m_ColorRules : List ColorRule

/-- The body of the `for` loop over `m_ColorRules` in `OnCustomDraw`: the colour
written to `clrText` by the iteration that returns, or `none` when the loop runs
to its end. -/
def OnCustomDraw_loop (env : DrawEnv) (dwAttributes : Nat) (szFileName : String) :
    List ColorRule → Option Nat
  | [] => none
  | ColorRule :: rest =>
    let bMatchFileName : Bool :=
      if ColorRule.strFilterPattern.length > 0 then
        if env.CheckWildcardMatch ColorRule.strFilterPattern szFileName
            (!ColorRule.caseInsensitive) = 1 then true else false
      else true
    let bMatchAttributes : Bool :=
      if ColorRule.dwFilterAttributes ≠ 0 then
        if (ColorRule.dwFilterAttributes &&& dwAttributes) ≠ 0 then true else false
      else true
    if bMatchFileName && bMatchAttributes then some ColorRule.rgbColour
    else OnCustomDraw_loop env dwAttributes szFileName rest

/-- The handler `Explorerplusplus::OnCustomDraw`: the `LRESULT` and the
notification structure as the handler leaves it. -/
def OnCustomDraw (env : DrawEnv) (pnmlvcd : NMLVCUSTOMDRAW) : Nat × NMLVCUSTOMDRAW :=
  if pnmlvcd.hwndFrom = env.m_hActiveListView then
    if pnmlvcd.dwDrawStage = CDDS_PREPAINT then
      (CDRF_NOTIFYITEMDRAW, pnmlvcd)
    else if pnmlvcd.dwDrawStage = CDDS_ITEMPREPAINT then
      let dwAttributes := env.QueryFileAttributes (static_cast_int pnmlvcd.dwItemSpec)
      let szFileName :=
        env.PathStripPath (env.QueryFullItemName (static_cast_int pnmlvcd.dwItemSpec))
      match OnCustomDraw_loop env dwAttributes szFileName env.m_ColorRules with
      | some rgb => (CDRF_NEWFONT, { pnmlvcd with clrText := rgb })
      | none => (CDRF_NOTIFYITEMDRAW, pnmlvcd)
    else
      (CDRF_NOTIFYITEMDRAW, pnmlvcd)
  else
    (0, pnmlvcd)

/-- When a colour rule matches an item, in the words of the specification: the
filter pattern is empty or the wildcard match of the pattern against the
path-stripped file name returns 1, and the attribute mask is 0 or shares a bit
with the attributes of the item. -/
def ruleMatches (env : DrawEnv) (dwItemSpec : Nat) (r : ColorRule) : Bool :=
  (r.strFilterPattern == "" ||
    env.CheckWildcardMatch r.strFilterPattern
      (env.PathStripPath (env.QueryFullItemName (static_cast_int dwItemSpec)))
      (!r.caseInsensitive) == 1) &&
  (r.dwFilterAttributes == 0 ||
    (r.dwFilterAttributes &&& env.QueryFileAttributes (static_cast_int dwItemSpec)) != 0)

/-! ## Opening items -/

/-- An item identifier list (`ITEMIDLIST`): the sequence of item ids from the
desktop down to the item. -/
abbrev ITEMIDLIST := List Nat

def SFGAO_LINK : Nat := 0x00010000
def SFGAO_STREAM : Nat := 0x00400000
def SFGAO_FOLDER : Nat := 0x20000000
def CSIDL_CONTROLS : Nat := 0x0003
def SHGDN_FORPARSING : Nat := 0x8000
def SW_SHOWNORMAL : Nat := 1
def EMPTY_STRING : String := ""

/-- The parsing name of the category view of the Control Panel, as given in the
comment of `OpenItem`. -/
def CONTROL_PANEL_CATEGORY_VIEW : String := "::\x7b26EE0668-A00A-44D7-9371-BEB064C98683\x7d"

/-- The shell calls made by `OpenItem`, each with the `HRESULT` it returns and
the value it writes through its out parameter, and the `handleZipFiles` entry of
`m_config`. -/
structure ShellEnv where
  SHGetFolderLocation : Nat → HRESULT × ITEMIDLIST
  GetIdlFromParsingName : String → HRESULT × ITEMIDLIST
  ILIsParent : ITEMIDLIST → ITEMIDLIST → Bool → Bool
  CompareIdls : ITEMIDLIST → ITEMIDLIST → Bool
  GetItemAttributes : ITEMIDLIST → Nat → HRESULT × Nat
  GetItemAttributesOfPath : String → Nat → HRESULT × Nat
  GetDisplayName : ITEMIDLIST → Nat → String
  ResolveLink : String → HRESULT × String
  MyExpandEnvironmentStrings : String → String
  handleZipFiles : Bool

/-- The calls by which `OpenItem` opens something. -/
inductive OpenAction where
  | OpenFolderItem (pidlItem : ITEMIDLIST) (bOpenInNewTab bOpenInNewWindow : Bool)
  | OpenFileItem (pidlItem : ITEMIDLIST) (szParameters : String)
  | ShellExecute (lpOperation lpFile lpParameters : String) (nShowCmd : Nat)
  deriving DecidableEq, Repr

/-- The two checks at the head of `OpenItem` that compute `bControlPanelParent`:
first against the folder of `CSIDL_CONTROLS`, then, when that did not set the
flag, against the category view. -/
def OpenItem_bControlPanelParent (env : ShellEnv) (pidlItem : ITEMIDLIST) : Bool :=
  let r1 := env.SHGetFolderLocation CSIDL_CONTROLS
  let b1 : Bool :=
    if SUCCEEDED r1.1 then
      if env.ILIsParent r1.2 pidlItem false && !env.CompareIdls r1.2 pidlItem then true
      else false
    else false
  if !b1 then
    let r2 := env.GetIdlFromParsingName CONTROL_PANEL_CATEGORY_VIEW
    if SUCCEEDED r2.1 then
      if env.ILIsParent r2.2 pidlItem false && !env.CompareIdls r2.2 pidlItem then true
      else b1
    else b1
  else b1

/-- The shortcut branch of `OpenItem`: the value of `hr` on reaching
`if(FAILED(hr))` together with the calls made until then, followed by the call
made under that test. -/
def OpenItem_shortcut (env : ShellEnv) (pidlItem : ITEMIDLIST)
    (bOpenInNewTab bOpenInNewWindow : Bool) : List OpenAction :=
  let szItemPath := env.GetDisplayName pidlItem SHGDN_FORPARSING
  let r0 := env.ResolveLink szItemPath
  let szTargetPath := r0.2
  let res : HRESULT × List OpenAction :=
    if r0.1 = S_OK then
      let r1 := env.GetItemAttributesOfPath szTargetPath (SFGAO_FOLDER ||| SFGAO_STREAM)
      let uAttributes := r1.2
      if SUCCEEDED r1.1 then
        if (((uAttributes &&& SFGAO_FOLDER) ≠ 0) && !((uAttributes &&& SFGAO_STREAM) ≠ 0)) ||
            (((uAttributes &&& SFGAO_FOLDER) ≠ 0) && ((uAttributes &&& SFGAO_STREAM) ≠ 0) &&
              env.handleZipFiles) then
          let r2 := env.GetIdlFromParsingName szTargetPath
          if SUCCEEDED r2.1 then
            (r2.1, [OpenAction.OpenFolderItem r2.2 bOpenInNewTab bOpenInNewWindow])
          else (r2.1, [])
        else (E_FAIL, [])
      else (r1.1, [])
    else (r0.1, [])
  if FAILED res.1 then res.2 ++ [OpenAction.OpenFileItem pidlItem EMPTY_STRING]
  else res.2

/-- The method `Explorerplusplus::OpenItem(LPCITEMIDLIST, BOOL, BOOL)`: the open
calls it makes, in order. -/
def OpenItem (env : ShellEnv) (pidlItem : ITEMIDLIST)
    (bOpenInNewTab bOpenInNewWindow : Bool) : List OpenAction :=
  let bControlPanelParent := OpenItem_bControlPanelParent env pidlItem
  let r := env.GetItemAttributes pidlItem (SFGAO_FOLDER ||| SFGAO_STREAM ||| SFGAO_LINK)
  let uAttributes := r.2
  if SUCCEEDED r.1 then
    if ((uAttributes &&& SFGAO_FOLDER) ≠ 0) && ((uAttributes &&& SFGAO_STREAM) ≠ 0) then
      if env.handleZipFiles then
        [OpenAction.OpenFolderItem pidlItem bOpenInNewTab bOpenInNewWindow]
      else
        [OpenAction.OpenFileItem pidlItem EMPTY_STRING]
    else if ((uAttributes &&& SFGAO_FOLDER) ≠ 0) && !bControlPanelParent then
      [OpenAction.OpenFolderItem pidlItem bOpenInNewTab bOpenInNewWindow]
    else if ((uAttributes &&& SFGAO_LINK) ≠ 0) && !bControlPanelParent then
      OpenItem_shortcut env pidlItem bOpenInNewTab bOpenInNewWindow
    else if bControlPanelParent && ((uAttributes &&& SFGAO_FOLDER) ≠ 0) then
      [OpenAction.ShellExecute "open"
        (env.MyExpandEnvironmentStrings "%windir%\\explorer.exe")
        (env.GetDisplayName pidlItem SHGDN_FORPARSING) SW_SHOWNORMAL]
    else
      [OpenAction.OpenFileItem pidlItem EMPTY_STRING]
  else []

/-- An item lies under the Control Panel, in the words of the specification: the
folder of `CSIDL_CONTROLS` or the category-view folder is obtained, is a parent
of the item, and is not the item itself. -/
def underControlPanel (env : ShellEnv) (pidlItem : ITEMIDLIST) : Prop :=
  (SUCCEEDED (env.SHGetFolderLocation CSIDL_CONTROLS).1 = true ∧
    env.ILIsParent (env.SHGetFolderLocation CSIDL_CONTROLS).2 pidlItem false = true ∧
    env.CompareIdls (env.SHGetFolderLocation CSIDL_CONTROLS).2 pidlItem = false) ∨
  (SUCCEEDED (env.GetIdlFromParsingName CONTROL_PANEL_CATEGORY_VIEW).1 = true ∧
    env.ILIsParent (env.GetIdlFromParsingName CONTROL_PANEL_CATEGORY_VIEW).2 pidlItem false
      = true ∧
    env.CompareIdls (env.GetIdlFromParsingName CONTROL_PANEL_CATEGORY_VIEW).2 pidlItem
      = false)

instance (env : ShellEnv) (pidlItem : ITEMIDLIST) : Decidable (underControlPanel env pidlItem) := by
  unfold underControlPanel; infer_instance

/-! ## Loading and saving settings, closing -/

/-- The two implementations of the interface `ILoadSave`: `CLoadSaveXML` and
`CLoadSaveRegistry`. -/
inductive LoadSaveKind where
  | XML
  | Registry
  deriving DecidableEq, Repr

/-- The groups of settings that the methods of `ILoadSave` load and save. -/
inductive SettingsGroup where
  | Bookmarks
  | GenericSettings
  | Tabs
  | DefaultColumns
  | ApplicationToolbar
  | ToolbarInformation
  | ColorRules
  | DialogStates
  deriving DecidableEq, Repr

/-- The calls with an effect outside the object that the settings and close
handlers make. `Load k g` and `Save k g` are the calls `Load<g>` and `Save<g>`
on an `ILoadSave` of kind `k`; `KillTimer` is the call on `AUTOSAVE_TIMER_ID`;
`MessageBox` is the confirmation box, preceded by the `LoadString` of its
text. -/
inductive AppEvent where
  | CloseHandle
  | Load (k : LoadSaveKind) (g : SettingsGroup)
  | Save (k : LoadSaveKind) (g : SettingsGroup)
  | ValidateLoadedSettings
  | LoadString
  | MessageBox
  | PluginManagerReset
  | KillTimer
  | DestroyWindow
  deriving DecidableEq, Repr

/-- The members of `Explorerplusplus` that the settings and close handlers read
and write; `m_pluginManager` is `true` while the pointer holds a manager. -/
structure AppState where
  m_bLoadSettingsFromXML : Bool
  m_bSavePreferencesToXMLFile : Bool
  m_iLastSelectedTab : Int
  m_pluginManager : Bool
  deriving DecidableEq, Repr

/-- The function `TestConfigFileInternal`: `hConfigFile` is the handle that
`CreateFile` with `OPEN_EXISTING` returns for the configuration file next to the
executable, `none` standing for `INVALID_HANDLE_VALUE`. -/
def TestConfigFileInternal (hConfigFile : Option Nat) : Bool × List AppEvent :=
  let bLoadSettingsFromXML := false
  match hConfigFile with
  | some _ => (true, [AppEvent.CloseHandle])
  | none => (bLoadSettingsFromXML, [])

/-- The method `Explorerplusplus::TestConfigFile`. -/
def TestConfigFile (hConfigFile : Option Nat) (st : AppState) : AppState × List AppEvent :=
  ({ st with m_bLoadSettingsFromXML := (TestConfigFileInternal hConfigFile).1 },
    (TestConfigFileInternal hConfigFile).2)

/-- The method `Explorerplusplus::LoadAllSettings`: the object afterwards, the
kind of `ILoadSave` stored through `pLoadSave`, and the calls made. -/
def LoadAllSettings (hConfigFile : Option Nat) (st : AppState) :
    AppState × LoadSaveKind × List AppEvent :=
  let t := TestConfigFile hConfigFile st
  let st1 := t.1
  let r : AppState × LoadSaveKind :=
    if st1.m_bLoadSettingsFromXML then
      ({ st1 with m_bSavePreferencesToXMLFile := true }, LoadSaveKind.XML)
    else
      (st1, LoadSaveKind.Registry)
  let pLoadSave := r.2
  (r.1, pLoadSave,
    t.2 ++
    [AppEvent.Load pLoadSave SettingsGroup.Bookmarks,
     AppEvent.Load pLoadSave SettingsGroup.GenericSettings,
     AppEvent.Load pLoadSave SettingsGroup.DefaultColumns,
     AppEvent.Load pLoadSave SettingsGroup.ApplicationToolbar,
     AppEvent.Load pLoadSave SettingsGroup.ToolbarInformation,
     AppEvent.Load pLoadSave SettingsGroup.ColorRules,
     AppEvent.Load pLoadSave SettingsGroup.DialogStates,
     AppEvent.ValidateLoadedSettings])

/-- The method `Explorerplusplus::SaveAllSettings`; `iSelectedTabIndex` is what
`m_tabContainer->GetSelectedTabIndex()` returns. -/
def SaveAllSettings (iSelectedTabIndex : Int) (st : AppState) : AppState × List AppEvent :=
  let st1 := { st with m_iLastSelectedTab := iSelectedTabIndex }
  let pLoadSave : LoadSaveKind :=
    if st1.m_bSavePreferencesToXMLFile then LoadSaveKind.XML else LoadSaveKind.Registry
  (st1,
    [AppEvent.Save pLoadSave SettingsGroup.GenericSettings,
     AppEvent.Save pLoadSave SettingsGroup.Tabs,
     AppEvent.Save pLoadSave SettingsGroup.DefaultColumns,
     AppEvent.Save pLoadSave SettingsGroup.Bookmarks,
     AppEvent.Save pLoadSave SettingsGroup.ApplicationToolbar,
     AppEvent.Save pLoadSave SettingsGroup.ToolbarInformation,
     AppEvent.Save pLoadSave SettingsGroup.ColorRules,
     AppEvent.Save pLoadSave SettingsGroup.DialogStates])

def IDYES : Int := 6
def IDNO : Int := 7

/-- What `OnClose` reads from outside the object: the `confirmCloseTabs` entry of
`m_config`, the number of tabs, the selected tab index, and the button the user
presses should the confirmation box be shown. -/
structure CloseEnv where
  confirmCloseTabs : Bool
  GetNumTabs : Int
  GetSelectedTabIndex : Int
  response : Int

/-- The statements of `OnClose` after the confirmation: the plugin manager is
reset, the autosave timer killed, the settings saved and the main window
destroyed, and 0 is returned. `before` holds the calls already made. -/
def OnClose_close (env : CloseEnv) (st : AppState) (before : List AppEvent) :
    Int × AppState × List AppEvent :=
  let st1 := { st with m_pluginManager := false }
  let s := SaveAllSettings env.GetSelectedTabIndex st1
  (0, s.1,
    before ++ [AppEvent.PluginManagerReset] ++ [AppEvent.KillTimer] ++ s.2 ++
      [AppEvent.DestroyWindow])

/-- The handler `Explorerplusplus::OnClose`: its return value, the object
afterwards and the calls made, in order. -/
def OnClose (env : CloseEnv) (st : AppState) : Int × AppState × List AppEvent :=
  if env.confirmCloseTabs && decide (env.GetNumTabs > 1) then
    if env.response = IDNO then
      (1, st, [AppEvent.LoadString, AppEvent.MessageBox])
    else
      OnClose_close env st [AppEvent.LoadString, AppEvent.MessageBox]
  else
    OnClose_close env st []

/-- Whether an event is a call of one of the `Save` methods of `ILoadSave`. -/
def AppEvent.isSave : AppEvent → Bool
  | .Save _ _ => true
  | _ => false

/-- A plugin-manager replay of a trace: whether some `DestroyWindow` of the
trace happens while the plugin manager is alive, `alive` telling whether it is
alive at the start. -/
def destroysWhileAlive (alive : Bool) : List AppEvent → Bool
  | [] => false
  | AppEvent.PluginManagerReset :: es => destroysWhileAlive false es
  | AppEvent.DestroyWindow :: es => alive || destroysWhileAlive alive es
  | _ :: es => destroysWhileAlive alive es

/-! ## The clipboard chain -/

def NULL : Nat := 0
def WM_DRAWCLIPBOARD : Nat := 0x0308
def WM_CHANGECBCHAIN : Nat := 0x030D
def TB_ENABLEBUTTON : Nat := 0x0401
def CF_HDROP : Nat := 15
def TVIF_STATE : Nat := 0x0008
def TVIF_HANDLE : Nat := 0x0010
def TVIS_CUT : Nat := 0x0004

/-- What the handlers here read and write of a tab's `CShellBrowser`, through
`GetDirMonitorId`/`SetDirMonitorId`, `QueryCurrentDirectory`, `InVirtualFolder`
and `GetFolderIndex`. -/
structure CShellBrowser where
  DirMonitorId : Int
  CurrentDirectory : String
  InVirtualFolder : Bool
  FolderIndex : Int
  deriving DecidableEq, Repr

/-- A tab, reduced to its shell browser. -/
structure Tab where
  shellBrowser : CShellBrowser
  deriving DecidableEq, Repr

/-- The tabs of `m_tabContainer`, by tab id. -/
abbrev TabContainer := Int → Option Tab

/-- The members of `Explorerplusplus` that the clipboard handlers read and
write. Pointers and handles are the words they are, `NULL` being `0`. -/
structure ClipState where
  m_pClipboardDataObject : Nat
  m_CutFileNameList : List String
  m_iCutTabInternal : Int
  m_hCutTreeViewItem : Nat
  m_hNextClipboardViewer : HWND
  deriving DecidableEq, Repr

/-- What the clipboard handlers read from outside the object. -/
structure ClipEnv where
  OleIsCurrentClipboard : Nat → HRESULT
  GetTabOptional : TabContainer
  LocateFileItemIndex : Tab → String → Int
  activeInVirtualFolder : Bool
  IsClipboardFormatAvailable : Nat → Bool
  m_hTreeView : HWND
  mainToolbar : HWND
  TOOLBAR_PASTE : Nat

/-- The calls with an effect outside the object that the clipboard handlers
make. `DeghostItem iTab iItem` is the call on the shell browser of the tab with
id `iTab`; `TreeView_SetItem` carries the fields of the `TVITEM` passed. -/
inductive ClipEvent where
  | DeghostItem (iTab : Int) (iItem : Int)
  | TreeView_SetItem (hwnd : HWND) (mask hItem state stateMask : Nat)
  | Release (pDataObject : Nat)
  | SendMessage (hwnd : HWND) (msg wParam lParam : Nat)
  deriving DecidableEq, Repr

/-- The loop of `OnDrawClipboard` over `m_CutFileNameList`. -/
def OnDrawClipboard_deghost (env : ClipEnv) (m_iCutTabInternal : Int) :
    List String → List ClipEvent
  | [] => []
  | strFile :: rest =>
    (match env.GetTabOptional m_iCutTabInternal with
      | some tab =>
        let iItem := env.LocateFileItemIndex tab strFile
        if iItem ≠ -1 then [ClipEvent.DeghostItem m_iCutTabInternal iItem] else []
      | none => []) ++
    OnDrawClipboard_deghost env m_iCutTabInternal rest

/-- The handler `Explorerplusplus::OnDrawClipboard`. -/
def OnDrawClipboard (env : ClipEnv) (st : ClipState) : ClipState × List ClipEvent :=
  let r : ClipState × List ClipEvent :=
    if st.m_pClipboardDataObject ≠ NULL then
      if env.OleIsCurrentClipboard st.m_pClipboardDataObject = S_FALSE then
        let ev1 := OnDrawClipboard_deghost env st.m_iCutTabInternal st.m_CutFileNameList
        let st1 := { st with m_CutFileNameList := [] }
        let r2 : ClipState × List ClipEvent :=
          if st1.m_hCutTreeViewItem ≠ NULL then
            ({ st1 with m_hCutTreeViewItem := NULL },
              [ClipEvent.TreeView_SetItem env.m_hTreeView (TVIF_HANDLE ||| TVIF_STATE)
                st1.m_hCutTreeViewItem 0 TVIS_CUT])
          else (st1, [])
        ({ r2.1 with m_pClipboardDataObject := NULL },
          ev1 ++ r2.2 ++ [ClipEvent.Release st.m_pClipboardDataObject])
      else (st, [])
    else (st, [])
  let paste := ClipEvent.SendMessage env.mainToolbar TB_ENABLEBUTTON env.TOOLBAR_PASTE
    (if !env.activeInVirtualFolder && env.IsClipboardFormatAvailable CF_HDROP then 1 else 0)
  let fwd : List ClipEvent :=
    if r.1.m_hNextClipboardViewer ≠ NULL then
      [ClipEvent.SendMessage r.1.m_hNextClipboardViewer WM_DRAWCLIPBOARD 0 0]
    else []
  (r.1, r.2 ++ [paste] ++ fwd)

/-- The handler `Explorerplusplus::OnChangeCBChain`. `wParam` and `lParam` are
the message words; the casts to `HWND` keep the word. -/
def OnChangeCBChain (wParam lParam : Nat) (st : ClipState) : ClipState × List ClipEvent :=
  if wParam = st.m_hNextClipboardViewer then
    ({ st with m_hNextClipboardViewer := lParam }, [])
  else if st.m_hNextClipboardViewer ≠ NULL then
    (st, [ClipEvent.SendMessage st.m_hNextClipboardViewer WM_CHANGECBCHAIN wParam lParam])
  else (st, [])

/-! ## Directory monitoring -/

def FILE_NOTIFY_CHANGE_FILE_NAME : Nat := 0x00000001
def FILE_NOTIFY_CHANGE_DIR_NAME : Nat := 0x00000002
def FILE_NOTIFY_CHANGE_ATTRIBUTES : Nat := 0x00000004
def FILE_NOTIFY_CHANGE_SIZE : Nat := 0x00000008
def FILE_NOTIFY_CHANGE_LAST_WRITE : Nat := 0x00000010
def FILE_NOTIFY_CHANGE_LAST_ACCESS : Nat := 0x00000020
def FILE_NOTIFY_CHANGE_CREATION : Nat := 0x00000040
def FILE_NOTIFY_CHANGE_SECURITY : Nat := 0x00000100

/-- The record `DirectoryAltered_t` handed to the monitor with a watch; `pData`
is always the `Explorerplusplus` object and is left out. -/
structure DirectoryAltered_t where
  iIndex : Int
  iFolderIndex : Int
  deriving DecidableEq, Repr

/-- The calls on `m_pDirMon`. -/
inductive DirMonEvent where
  | StopDirectoryMonitor (iStopIndex : Int)
  | WatchDirectory (Directory : String) (WatchFlags : Nat) (bWatchSubTree : Bool)
      (pData : DirectoryAltered_t)
  deriving DecidableEq, Repr

/-- The method `Explorerplusplus::HandleDirectoryMonitoring`. `WatchDirectory`
gives the id that the monitor returns for a watch. The result is `none` when
`m_tabContainer` holds no tab with id `iTabId`, a call outside the contract of
`GetTab`. -/
def HandleDirectoryMonitoring
    (WatchDirectory : String → Nat → Bool → DirectoryAltered_t → Int)
    (tabs : TabContainer) (iTabId : Int) : Option (TabContainer × List DirMonEvent) :=
  match tabs iTabId with
  | none => none
  | some tab =>
    let iDirMonitorId0 := tab.shellBrowser.DirMonitorId
    let stop := DirMonEvent.StopDirectoryMonitor iDirMonitorId0
    let szDirectoryToWatch := tab.shellBrowser.CurrentDirectory
    let r : Int × List DirMonEvent :=
      if tab.shellBrowser.InVirtualFolder then (-1, [])
      else
        let pDirectoryAltered : DirectoryAltered_t :=
          { iIndex := iTabId, iFolderIndex := tab.shellBrowser.FolderIndex }
        let flags := FILE_NOTIFY_CHANGE_FILE_NAME ||| FILE_NOTIFY_CHANGE_SIZE |||
          FILE_NOTIFY_CHANGE_DIR_NAME ||| FILE_NOTIFY_CHANGE_ATTRIBUTES |||
          FILE_NOTIFY_CHANGE_LAST_WRITE ||| FILE_NOTIFY_CHANGE_LAST_ACCESS |||
          FILE_NOTIFY_CHANGE_CREATION ||| FILE_NOTIFY_CHANGE_SECURITY
        (WatchDirectory szDirectoryToWatch flags false pDirectoryAltered,
          [DirMonEvent.WatchDirectory szDirectoryToWatch flags false pDirectoryAltered])
    let tab1 : Tab := { tab with shellBrowser := { tab.shellBrowser with DirMonitorId := r.1 } }
    some (fun i => if i = iTabId then some tab1 else tabs i, stop :: r.2)

/-- Whether an event is a call of `WatchDirectory`. -/
def DirMonEvent.isWatch : DirMonEvent → Bool
  | .WatchDirectory _ _ _ _ => true
  | _ => false

/-! ## Sizing the main window -/

def SWP_NOZORDER : Nat := 0x0004
def SWP_SHOWWINDOW : Nat := 0x0040
def SWP_HIDEWINDOW : Nat := 0x0080

def TREEVIEW_X_CLEARANCE : Int := 1
def TREEVIEW_Y_CLEARANCE : Int := 20
def TREEVIEW_HOLDER_CLEARANCE : Int := 4
def FOLDERS_TOOLBAR_WIDTH : Int := 16
def FOLDERS_TOOLBAR_HEIGHT : Int := 16
def FOLDERS_TOOLBAR_X_OFFSET : Int := -20
def FOLDERS_TOOLBAR_Y_OFFSET : Int := 3
def TAB_TOOLBAR_X_OFFSET : Int := -20
def TAB_TOOLBAR_Y_OFFSET : Int := 5
def TAB_TOOLBAR_WIDTH : Int := 20
def TAB_TOOLBAR_HEIGHT : Int := 20

/-- The value of an arithmetic result stored in an `int`: the mathematical
result brought into the 32-bit two's complement range. -/
def int32 (x : Int) : Int := (x + 2 ^ 31) % 2 ^ 32 - 2 ^ 31

/-- What `OnSize` reads: members of `Explorerplusplus`, entries of `m_config`,
the constant `TAB_WINDOW_HEIGHT`, the heights and widths that `GetRectHeight`
and `GetRectWidth` give for the rectangle of a window (`GetWindowRect`) or of
its client area (`GetClientRect`), and for every tab of `m_tabContainer` its
listview together with `IsTabSelected`. -/
structure SizeEnv where
  m_InitializationFinished : Bool
  m_hMainRebar : HWND
  m_hStatusBar : HWND
  m_hHolder : HWND
  m_hTabBacking : HWND
  m_hDisplayWindow : HWND
  m_hTabWindowToolbar : HWND
  m_hTreeView : HWND
  m_hFoldersToolbar : HWND
  m_hLastActiveWindow : HWND
  tabContainerHWND : HWND
  m_bShowTabBar : Bool
  showStatusBar : Bool
  showDisplayWindow : Bool
  displayWindowHeight : Int
  showFolders : Bool
  showTabBarAtBottom : Bool
  extendTabControl : Bool
  treeViewWidth : Int
  TAB_WINDOW_HEIGHT : Int
  GetWindowRectHeight : HWND → Int
  GetClientRectWidth : HWND → Int
  tabs : List (HWND × Bool)

/-- The calls by which `OnSize` places the windows. -/
inductive SizeEvent where
  | SetWindowPos (hWnd hWndInsertAfter : HWND) (X Y cx cy : Int) (uFlags : Nat)
  | PinStatusBar (hwnd : HWND) (width height : Int)
  | SetStatusBarParts (width : Int)
  | MoveWindow (hWnd : HWND) (X Y nWidth nHeight : Int) (bRepaint : Bool)
  | SetFocus (hWnd : HWND)
  deriving DecidableEq, Repr

/-- The value of `iIndentRebar` in `OnSize`: the height of the main rebar, 0
without one. -/
def OnSize_iIndentRebar (env : SizeEnv) : Int :=
  let iIndentRebar : Int := 0
  if env.m_hMainRebar ≠ NULL then
    int32 (iIndentRebar + env.GetWindowRectHeight env.m_hMainRebar)
  else iIndentRebar

/-- The value of `IndentBottom` in `OnSize`. -/
def OnSize_IndentBottom (env : SizeEnv) : Int :=
  let IndentBottom0 : Int := 0
  let IndentBottom1 :=
    if env.showStatusBar then int32 (IndentBottom0 + env.GetWindowRectHeight env.m_hStatusBar)
    else IndentBottom0
  if env.showDisplayWindow then int32 (IndentBottom1 + env.displayWindowHeight)
  else IndentBottom1

/-- The value of `IndentLeft` in `OnSize`. -/
def OnSize_IndentLeft (env : SizeEnv) : Int :=
  if env.showFolders then env.GetClientRectWidth env.m_hHolder else 0

/-- The value of `IndentTop` in `OnSize`. -/
def OnSize_IndentTop (env : SizeEnv) : Int :=
  let IndentTop := OnSize_iIndentRebar env
  if env.m_bShowTabBar then
    if !env.showTabBarAtBottom then int32 (IndentTop + env.TAB_WINDOW_HEIGHT)
    else IndentTop
  else IndentTop

/-- The body of the loop of `OnSize` over the tabs: the placement of one
listview. -/
def OnSize_listView (env : SizeEnv) (MainWindowWidth MainWindowHeight : Int)
    (tab : HWND × Bool) : SizeEvent :=
  let IndentLeft := OnSize_IndentLeft env
  let IndentTop := OnSize_IndentTop env
  let IndentBottom := OnSize_IndentBottom env
  let uFlags : Nat := if tab.2 then SWP_NOZORDER ||| SWP_SHOWWINDOW else SWP_NOZORDER
  if !env.showTabBarAtBottom then
    SizeEvent.SetWindowPos tab.1 NULL IndentLeft IndentTop
      (int32 (MainWindowWidth - IndentLeft))
      (int32 (int32 (MainWindowHeight - IndentBottom) - IndentTop)) uFlags
  else if env.m_bShowTabBar then
    SizeEvent.SetWindowPos tab.1 NULL IndentLeft IndentTop
      (int32 (MainWindowWidth - IndentLeft))
      (int32 (int32 (int32 (MainWindowHeight - IndentBottom) - IndentTop) -
        env.TAB_WINDOW_HEIGHT)) uFlags
  else
    SizeEvent.SetWindowPos tab.1 NULL IndentLeft IndentTop
      (int32 (MainWindowWidth - IndentLeft))
      (int32 (int32 (MainWindowHeight - IndentBottom) - IndentTop)) uFlags

/-- The handler `Explorerplusplus::OnSize`: its return value and the calls it
makes, in order; the first call of an initialised window is the placement of the
tab backing window. -/
def OnSize (env : SizeEnv) (MainWindowWidth MainWindowHeight : Int) : Bool × List SizeEvent :=
  if !env.m_InitializationFinished then (true, [])
  else
    let iIndentRebar := OnSize_iIndentRebar env
    let IndentBottom := OnSize_IndentBottom env
    let IndentLeft := OnSize_IndentLeft env
    let IndentTop := OnSize_IndentTop env
    let iTabBackingLeft : Int := if env.extendTabControl then 0 else IndentLeft
    let iTabBackingWidth : Int :=
      if env.extendTabControl then MainWindowWidth else int32 (MainWindowWidth - IndentLeft)
    let uFlags : Nat := if env.m_bShowTabBar then SWP_SHOWWINDOW else SWP_HIDEWINDOW
    let iTabTop : Int :=
      if !env.showTabBarAtBottom then iIndentRebar
      else int32 (int32 (MainWindowHeight - IndentBottom) - env.TAB_WINDOW_HEIGHT)
    let iHolderTop : Int :=
      if env.extendTabControl && !env.showTabBarAtBottom then IndentTop else iIndentRebar
    let iHolderHeight : Int :=
      if env.extendTabControl && env.showTabBarAtBottom && env.m_bShowTabBar then
        int32 (int32 (int32 (MainWindowHeight - IndentBottom) - iHolderTop) -
          env.TAB_WINDOW_HEIGHT)
      else int32 (int32 (MainWindowHeight - IndentBottom) - iHolderTop)
    let iHolderWidth : Int := env.treeViewWidth
    (true,
      [SizeEvent.SetWindowPos env.m_hTabBacking env.m_hDisplayWindow iTabBackingLeft iTabTop
         iTabBackingWidth env.TAB_WINDOW_HEIGHT uFlags,
       SizeEvent.SetWindowPos env.tabContainerHWND NULL 0 0 (int32 (iTabBackingWidth - 25))
         env.TAB_WINDOW_HEIGHT (SWP_SHOWWINDOW ||| SWP_NOZORDER),
       SizeEvent.SetWindowPos env.m_hTabWindowToolbar NULL
         (int32 (iTabBackingWidth + TAB_TOOLBAR_X_OFFSET)) TAB_TOOLBAR_Y_OFFSET
         TAB_TOOLBAR_WIDTH TAB_TOOLBAR_HEIGHT (SWP_SHOWWINDOW ||| SWP_NOZORDER),
       SizeEvent.SetWindowPos env.m_hHolder NULL 0 iHolderTop iHolderWidth iHolderHeight
         SWP_NOZORDER,
       SizeEvent.SetWindowPos env.m_hTreeView NULL TREEVIEW_X_CLEARANCE TREEVIEW_Y_CLEARANCE
         (int32 (int32 (iHolderWidth - TREEVIEW_HOLDER_CLEARANCE) - TREEVIEW_X_CLEARANCE))
         (int32 (iHolderHeight - TREEVIEW_Y_CLEARANCE)) SWP_NOZORDER,
       SizeEvent.SetWindowPos env.m_hFoldersToolbar NULL
         (int32 (iHolderWidth + FOLDERS_TOOLBAR_X_OFFSET)) FOLDERS_TOOLBAR_Y_OFFSET
         FOLDERS_TOOLBAR_WIDTH FOLDERS_TOOLBAR_HEIGHT (SWP_SHOWWINDOW ||| SWP_NOZORDER),
       SizeEvent.SetWindowPos env.m_hDisplayWindow NULL 0
         (int32 (MainWindowHeight - IndentBottom)) MainWindowWidth env.displayWindowHeight
         (SWP_SHOWWINDOW ||| SWP_NOZORDER)] ++
      env.tabs.map (OnSize_listView env MainWindowWidth MainWindowHeight) ++
      [SizeEvent.PinStatusBar env.m_hStatusBar MainWindowWidth MainWindowHeight,
       SizeEvent.SetStatusBarParts MainWindowWidth,
       SizeEvent.MoveWindow env.m_hMainRebar 0 0 MainWindowWidth 0 false,
       SizeEvent.SetFocus env.m_hLastActiveWindow])

/-! ## Sample environments -/

/-- A listview with handle 5 whose items are all named `C:\dir\a.txt` with
attributes `0x20`; the wildcard matcher accepts exactly the pattern `*.txt`. -/
def sampleDrawEnv : DrawEnv where
  m_hActiveListView := 5
  QueryFileAttributes := fun _ => 0x20
  QueryFullItemName := fun _ => "C:\\dir\\a.txt"
  PathStripPath := fun _ => "a.txt"
  CheckWildcardMatch := fun pat _ _ => if pat = "*.txt" then 1 else 0
  m_ColorRules :=
    [{ strFilterPattern := "*.doc", caseInsensitive := false, dwFilterAttributes := 0,
       rgbColour := 1 },
     { strFilterPattern := "", caseInsensitive := false, dwFilterAttributes := 0x2,
       rgbColour := 2 },
     { strFilterPattern := "*.txt", caseInsensitive := true, dwFilterAttributes := 0x21,
       rgbColour := 3 },
     { strFilterPattern := "", caseInsensitive := false, dwFilterAttributes := 0,
       rgbColour := 4 }]

/-- A shell in which the Control Panel is the item list `[3]` and its category
view `[4]`, parenthood is being a prefix, every item has the attributes `attrs`,
every link resolves with the result `hrResolve` to the path `target`, which has
the attributes `targetAttrs` and the item list `[9]`. -/
def sampleShellEnv (handleZipFiles : Bool) (attrs : Nat) (hrResolve : HRESULT)
    (targetAttrs : Nat) : ShellEnv where
  SHGetFolderLocation := fun _ => (S_OK, [3])
  GetIdlFromParsingName := fun name =>
    if name = CONTROL_PANEL_CATEGORY_VIEW then (S_OK, [4]) else (S_OK, [9])
  ILIsParent := fun parent child _ => child.take parent.length == parent
  CompareIdls := fun a b => a == b
  GetItemAttributes := fun _ _ => (S_OK, attrs)
  GetItemAttributesOfPath := fun _ _ => (S_OK, targetAttrs)
  GetDisplayName := fun _ _ => "item"
  ResolveLink := fun _ => (hrResolve, "target")
  MyExpandEnvironmentStrings := fun _ => "C:\\Windows\\explorer.exe"
  handleZipFiles := handleZipFiles


/-- A window with three tabs and confirmation on, the user pressing
`response`. -/
def sampleCloseEnv (response : Int) : CloseEnv where
  confirmCloseTabs := true
  GetNumTabs := 3
  GetSelectedTabIndex := 1
  response := response

/-- An object that holds a plugin manager and saves to the registry. -/
def sampleAppState : AppState where
  m_bLoadSettingsFromXML := false
  m_bSavePreferencesToXMLFile := false
  m_iLastSelectedTab := 0
  m_pluginManager := true

/-- A tab in `C:\dir` watched under monitor id 4. -/
def sampleTab : Tab where
  shellBrowser :=
    { DirMonitorId := 4, CurrentDirectory := "C:\\dir", InVirtualFolder := false,
      FolderIndex := 11 }

/-- A container whose only tab is `sampleTab`, with id 2. -/
def sampleTabs : TabContainer := fun i => if i = 2 then some sampleTab else none

/-- The clipboard no longer holds the data object of the program; the tab with
id 2 shows `a.txt` at index 0 and no other file. -/
def sampleClipEnv : ClipEnv where
  OleIsCurrentClipboard := fun _ => S_FALSE
  GetTabOptional := sampleTabs
  LocateFileItemIndex := fun _ name => if name = "a.txt" then 0 else -1
  activeInVirtualFolder := false
  IsClipboardFormatAvailable := fun _ => true
  m_hTreeView := 30
  mainToolbar := 40
  TOOLBAR_PASTE := 7

/-- Two files cut from tab 2, `gone.txt` no longer shown there, and a cut
treeview item 50; the next clipboard viewer is the window 60. -/
def sampleClipState : ClipState where
  m_pClipboardDataObject := 1
  m_CutFileNameList := ["a.txt", "gone.txt"]
  m_iCutTabInternal := 2
  m_hCutTreeViewItem := 50
  m_hNextClipboardViewer := 60

/-- An initialised window with a rebar 60 high, a status bar 22 high, a display
window 90 high, a folders pane 200 wide, a visible tab bar of height 24 and one
selected tab. -/
def sampleSizeEnv (showTabBarAtBottom : Bool) : SizeEnv where
  m_InitializationFinished := true
  m_hMainRebar := 10
  m_hStatusBar := 11
  m_hHolder := 12
  m_hTabBacking := 13
  m_hDisplayWindow := 14
  m_hTabWindowToolbar := 15
  m_hTreeView := 16
  m_hFoldersToolbar := 17
  m_hLastActiveWindow := 18
  tabContainerHWND := 19
  m_bShowTabBar := true
  showStatusBar := true
  showDisplayWindow := true
  displayWindowHeight := 90
  showFolders := true
  showTabBarAtBottom := showTabBarAtBottom
  extendTabControl := false
  treeViewWidth := 208
  TAB_WINDOW_HEIGHT := 24
  GetWindowRectHeight := fun h => if h = 10 then 60 else 22
  GetClientRectWidth := fun _ => 200
  tabs := [(20, true)]

/-! ## Theorems -/

/-- A string has positive length exactly when it is not the empty string. -/
theorem String_length_pos_iff_ne_empty (s : String) : s.length > 0 ↔ s ≠ "" := by
  cases s with
  | mk d =>
    cases d with
    | nil => exact ⟨fun h => absurd h (by decide), fun h => absurd rfl h⟩
    | cons c cs =>
      refine ⟨fun _ h => ?_, fun _ => ?_⟩
      · exact absurd (congrArg String.data h) (by simp)
      · show 0 < (c :: cs).length
        simp

/-- The test `bMatchFileName && bMatchAttributes` computed by an iteration of the
loop of `OnCustomDraw` is `ruleMatches`. -/
theorem OnCustomDraw_test_eq_ruleMatches (env : DrawEnv) (dwItemSpec : Nat) (r : ColorRule) :
    ((if r.strFilterPattern.length > 0 then
        if env.CheckWildcardMatch r.strFilterPattern
            (env.PathStripPath (env.QueryFullItemName (static_cast_int dwItemSpec)))
            (!r.caseInsensitive) = 1 then true else false
      else true) &&
     (if r.dwFilterAttributes ≠ 0 then
        if (r.dwFilterAttributes &&& env.QueryFileAttributes (static_cast_int dwItemSpec)) ≠ 0
        then true else false
      else true)) = ruleMatches env dwItemSpec r := by
  unfold ruleMatches
  congr 1
  · by_cases hp : r.strFilterPattern = ""
    · have hl : ¬ r.strFilterPattern.length > 0 := by
        rw [String_length_pos_iff_ne_empty]; exact not_not.mpr hp
      rw [if_neg hl]
      simp [hp]
    · have hl : r.strFilterPattern.length > 0 := (String_length_pos_iff_ne_empty _).mpr hp
      rw [if_pos hl]
      have hb : (r.strFilterPattern == "") = false := by simpa using hp
      rw [hb, Bool.false_or]
      by_cases hw : env.CheckWildcardMatch r.strFilterPattern
          (env.PathStripPath (env.QueryFullItemName (static_cast_int dwItemSpec)))
          (!r.caseInsensitive) = 1
      · rw [if_pos hw]; simp [hw]
      · rw [if_neg hw]; symm; simpa using hw
  · by_cases hm : r.dwFilterAttributes = 0
    · rw [if_neg (not_not.mpr hm)]
      simp [hm]
    · rw [if_pos hm]
      have hb : (r.dwFilterAttributes == 0) = false := by simpa using hm
      rw [hb, Bool.false_or]
      by_cases ha : (r.dwFilterAttributes &&&
          env.QueryFileAttributes (static_cast_int dwItemSpec)) = 0
      · rw [if_neg (not_not.mpr ha)]; simp [ha]
      · rw [if_pos ha]; symm; simpa using ha

/-- The loop of `OnCustomDraw` stops at the first rule for which `ruleMatches`
holds and yields its colour. -/
theorem OnCustomDraw_loop_eq_find (env : DrawEnv) (dwItemSpec : Nat) (rules : List ColorRule) :
    OnCustomDraw_loop env (env.QueryFileAttributes (static_cast_int dwItemSpec))
        (env.PathStripPath (env.QueryFullItemName (static_cast_int dwItemSpec))) rules =
      (rules.find? (ruleMatches env dwItemSpec)).map ColorRule.rgbColour := by
  induction rules with
  | nil => rfl
  | cons r rest ih =>
    simp only [OnCustomDraw_loop, List.find?_cons]
    rw [OnCustomDraw_test_eq_ruleMatches, ih]
    cases ruleMatches env dwItemSpec r <;> simp

/-- C1: for an item-prepaint notification from the active listview,
`OnCustomDraw` writes to `clrText` the colour of the first rule of
`m_ColorRules`, in list order, that matches (pattern empty or wildcard match
returning 1, and mask 0 or sharing a bit with the attributes) and returns
`CDRF_NEWFONT`; when no rule matches it leaves the notification as it is and
returns `CDRF_NOTIFYITEMDRAW`. -/
theorem OnCustomDraw_itemPrepaint (env : DrawEnv) (nm : NMLVCUSTOMDRAW)
    (hFrom : nm.hwndFrom = env.m_hActiveListView)
    (hStage : nm.dwDrawStage = CDDS_ITEMPREPAINT) :
    OnCustomDraw env nm =
      match env.m_ColorRules.find? (ruleMatches env nm.dwItemSpec) with
      | some r => (CDRF_NEWFONT, { nm with clrText := r.rgbColour })
      | none => (CDRF_NOTIFYITEMDRAW, nm) := by
  have hne : ¬ CDDS_ITEMPREPAINT = CDDS_PREPAINT := by decide
  unfold OnCustomDraw
  rw [if_pos hFrom, hStage, if_neg hne, if_pos rfl]
  simp only []
  rw [OnCustomDraw_loop_eq_find]
  cases env.m_ColorRules.find? (ruleMatches env nm.dwItemSpec) <;> rfl

/-- Witness for C1: in the sample listview the first two rules do not match
item 0 and the third does, so its colour 3 is written and `CDRF_NEWFONT`
returned. -/
theorem OnCustomDraw_itemPrepaint_witness :
    OnCustomDraw sampleDrawEnv ⟨5, CDDS_ITEMPREPAINT, 0, 77⟩ =
      (CDRF_NEWFONT, ⟨5, CDDS_ITEMPREPAINT, 0, 3⟩) := by
  rw [OnCustomDraw_itemPrepaint sampleDrawEnv ⟨5, CDDS_ITEMPREPAINT, 0, 77⟩ rfl rfl]
  decide

/-- The flag `bControlPanelParent` is set for every item that lies under the
Control Panel. -/
theorem OpenItem_bControlPanelParent_of_under (env : ShellEnv) (pidlItem : ITEMIDLIST)
    (h : underControlPanel env pidlItem) : OpenItem_bControlPanelParent env pidlItem = true := by
  unfold OpenItem_bControlPanelParent
  rcases h with ⟨h1, h2, h3⟩ | ⟨h1, h2, h3⟩
  · simp [h1, h2, h3]
  · by_cases hc : SUCCEEDED (env.SHGetFolderLocation CSIDL_CONTROLS).1 = true <;>
      by_cases hp : env.ILIsParent (env.SHGetFolderLocation CSIDL_CONTROLS).2 pidlItem false
        = true <;>
      by_cases he : env.CompareIdls (env.SHGetFolderLocation CSIDL_CONTROLS).2 pidlItem
        = true <;>
      simp [h1, h2, h3, hc, hp, he]

/-- Outside the zip branch an item under the Control Panel is handed to the
shell: `ShellExecute` of Explorer for a folder, `OpenFileItem` otherwise. -/
theorem OpenItem_controlPanel_not_zip (env : ShellEnv) (pidlItem : ITEMIDLIST)
    (bOpenInNewTab bOpenInNewWindow : Bool)
    (hUnder : underControlPanel env pidlItem)
    (hAttr : SUCCEEDED (env.GetItemAttributes pidlItem
      (SFGAO_FOLDER ||| SFGAO_STREAM ||| SFGAO_LINK)).1 = true)
    (hNotZip : ¬ (((env.GetItemAttributes pidlItem
        (SFGAO_FOLDER ||| SFGAO_STREAM ||| SFGAO_LINK)).2 &&& SFGAO_FOLDER) ≠ 0 ∧
      ((env.GetItemAttributes pidlItem
        (SFGAO_FOLDER ||| SFGAO_STREAM ||| SFGAO_LINK)).2 &&& SFGAO_STREAM) ≠ 0)) :
    OpenItem env pidlItem bOpenInNewTab bOpenInNewWindow =
      if ((env.GetItemAttributes pidlItem
          (SFGAO_FOLDER ||| SFGAO_STREAM ||| SFGAO_LINK)).2 &&& SFGAO_FOLDER) ≠ 0 then
        [OpenAction.ShellExecute "open"
          (env.MyExpandEnvironmentStrings "%windir%\\explorer.exe")
          (env.GetDisplayName pidlItem SHGDN_FORPARSING) SW_SHOWNORMAL]
      else [OpenAction.OpenFileItem pidlItem EMPTY_STRING] := by
  have hb := OpenItem_bControlPanelParent_of_under env pidlItem hUnder
  unfold OpenItem
  simp only [hb, hAttr, if_true]
  by_cases hf : ((env.GetItemAttributes pidlItem
      (SFGAO_FOLDER ||| SFGAO_STREAM ||| SFGAO_LINK)).2 &&& SFGAO_FOLDER) = 0
  · simp [hf]
  · have hs : ((env.GetItemAttributes pidlItem
        (SFGAO_FOLDER ||| SFGAO_STREAM ||| SFGAO_LINK)).2 &&& SFGAO_STREAM) = 0 := by
      by_contra hs
      exact hNotZip ⟨hf, hs⟩
    simp [hf, hs]

/-- C2 (the failing input): with `handleZipFiles` set, the item `[3, 7]` lies
under the Control Panel `[3]`, its attributes are retrieved successfully and
hold both `SFGAO_FOLDER` and `SFGAO_STREAM`; `OpenItem` opens it in place with
`OpenFolderItem` instead of handing it to the shell. -/
theorem OpenItem_controlPanel_zip_in_place :
    underControlPanel (sampleShellEnv true (SFGAO_FOLDER ||| SFGAO_STREAM) S_OK 0) [3, 7] ∧
    SUCCEEDED ((sampleShellEnv true (SFGAO_FOLDER ||| SFGAO_STREAM) S_OK 0).GetItemAttributes
      [3, 7] (SFGAO_FOLDER ||| SFGAO_STREAM ||| SFGAO_LINK)).1 = true ∧
    OpenItem (sampleShellEnv true (SFGAO_FOLDER ||| SFGAO_STREAM) S_OK 0) [3, 7] false false =
      [OpenAction.OpenFolderItem [3, 7] false false] := by
  decide

/-- A shortcut whose link resolves with `S_OK` or with a failure is always
opened: the resolved target with `OpenFolderItem` when the link resolves, the
attributes and the item list of the target are obtained and the target is a
folder (or a zip file while `handleZipFiles` is set), the shortcut itself with
`OpenFileItem` in every other case. -/
theorem OpenItem_shortcut_opens (env : ShellEnv) (pidlItem : ITEMIDLIST)
    (bOpenInNewTab bOpenInNewWindow : Bool)
    (hr : (env.ResolveLink (env.GetDisplayName pidlItem SHGDN_FORPARSING)).1 = S_OK ∨
      FAILED (env.ResolveLink (env.GetDisplayName pidlItem SHGDN_FORPARSING)).1 = true) :
    OpenItem_shortcut env pidlItem bOpenInNewTab bOpenInNewWindow =
      let szTargetPath := (env.ResolveLink (env.GetDisplayName pidlItem SHGDN_FORPARSING)).2
      let a := env.GetItemAttributesOfPath szTargetPath (SFGAO_FOLDER ||| SFGAO_STREAM)
      if (env.ResolveLink (env.GetDisplayName pidlItem SHGDN_FORPARSING)).1 = S_OK ∧
          SUCCEEDED a.1 = true ∧
          ((a.2 &&& SFGAO_FOLDER) ≠ 0 ∧
            ((a.2 &&& SFGAO_STREAM) = 0 ∨ env.handleZipFiles = true)) ∧
          SUCCEEDED (env.GetIdlFromParsingName szTargetPath).1 = true then
        [OpenAction.OpenFolderItem (env.GetIdlFromParsingName szTargetPath).2
          bOpenInNewTab bOpenInNewWindow]
      else [OpenAction.OpenFileItem pidlItem EMPTY_STRING] := by
  have hFS : ∀ x : HRESULT, SUCCEEDED x = true → FAILED x = false := by
    intro x hx
    have h0 : (0 : Int) ≤ x := by simpa [SUCCEEDED] using hx
    simpa [FAILED] using h0
  have hSF : ∀ x : HRESULT, SUCCEEDED x = false → FAILED x = true := by
    intro x hx
    have h0 : x < (0 : Int) := by simpa [SUCCEEDED] using hx
    simpa [FAILED] using h0
  have hE : FAILED E_FAIL = true := by decide
  unfold OpenItem_shortcut
  simp only []
  rcases hr with h0 | h0
  · simp only [h0, if_true, true_and]
    cases h1 : SUCCEEDED (env.GetItemAttributesOfPath
        (env.ResolveLink (env.GetDisplayName pidlItem SHGDN_FORPARSING)).2
        (SFGAO_FOLDER ||| SFGAO_STREAM)).1
    · simp [hSF _ h1]
    · by_cases hf : ((env.GetItemAttributesOfPath
          (env.ResolveLink (env.GetDisplayName pidlItem SHGDN_FORPARSING)).2
          (SFGAO_FOLDER ||| SFGAO_STREAM)).2 &&& SFGAO_FOLDER) = 0 <;>
        by_cases hs : ((env.GetItemAttributesOfPath
          (env.ResolveLink (env.GetDisplayName pidlItem SHGDN_FORPARSING)).2
          (SFGAO_FOLDER ||| SFGAO_STREAM)).2 &&& SFGAO_STREAM) = 0 <;>
        cases hz : env.handleZipFiles <;>
        cases h2 : SUCCEEDED (env.GetIdlFromParsingName
          (env.ResolveLink (env.GetDisplayName pidlItem SHGDN_FORPARSING)).2).1 <;>
        first
          | simp [hf, hs, hE, hSF _ h2]
          | simp [hf, hs, hE, hFS _ h2, h2]
  · have hne : ¬ (env.ResolveLink (env.GetDisplayName pidlItem SHGDN_FORPARSING)).1 = S_OK := by
      intro he; rw [he] at h0; exact absurd h0 (by decide)
    simp [hne, h0]

/-- For a shortcut (attributes retrieved successfully, `SFGAO_LINK` set,
`SFGAO_FOLDER` not set) that does not lie under the Control Panel, `OpenItem`
runs its shortcut branch. -/
theorem OpenItem_of_shortcut (env : ShellEnv) (pidlItem : ITEMIDLIST)
    (bOpenInNewTab bOpenInNewWindow : Bool)
    (hNotUnder : OpenItem_bControlPanelParent env pidlItem = false)
    (hAttr : SUCCEEDED (env.GetItemAttributes pidlItem
      (SFGAO_FOLDER ||| SFGAO_STREAM ||| SFGAO_LINK)).1 = true)
    (hLink : ((env.GetItemAttributes pidlItem
      (SFGAO_FOLDER ||| SFGAO_STREAM ||| SFGAO_LINK)).2 &&& SFGAO_LINK) ≠ 0)
    (hNotFolder : ((env.GetItemAttributes pidlItem
      (SFGAO_FOLDER ||| SFGAO_STREAM ||| SFGAO_LINK)).2 &&& SFGAO_FOLDER) = 0) :
    OpenItem env pidlItem bOpenInNewTab bOpenInNewWindow =
      OpenItem_shortcut env pidlItem bOpenInNewTab bOpenInNewWindow := by
  unfold OpenItem
  simp [hNotUnder, hAttr, hLink, hNotFolder]

/-- C3 (the failing input): the item `[8, 7]` is a shortcut outside the Control
Panel whose attributes are retrieved successfully; its link resolves with the
success code `S_FALSE`, and `OpenItem` opens nothing. -/
theorem OpenItem_shortcut_S_FALSE_opens_nothing :
    ¬ underControlPanel (sampleShellEnv false SFGAO_LINK S_FALSE 0) [8, 7] ∧
    (sampleShellEnv false SFGAO_LINK S_FALSE 0).GetItemAttributes [8, 7]
      (SFGAO_FOLDER ||| SFGAO_STREAM ||| SFGAO_LINK) = (S_OK, SFGAO_LINK) ∧
    OpenItem (sampleShellEnv false SFGAO_LINK S_FALSE 0) [8, 7] false false = [] := by
  decide

/-- C4: for an item whose attributes are retrieved successfully and hold both
`SFGAO_FOLDER` and `SFGAO_STREAM`, `OpenItem` makes exactly one open call:
`OpenFolderItem` with the flags of the caller when `handleZipFiles` is set,
`OpenFileItem` with empty parameters when it is not. -/
theorem OpenItem_zip (env : ShellEnv) (pidlItem : ITEMIDLIST)
    (bOpenInNewTab bOpenInNewWindow : Bool)
    (hAttr : SUCCEEDED (env.GetItemAttributes pidlItem
      (SFGAO_FOLDER ||| SFGAO_STREAM ||| SFGAO_LINK)).1 = true)
    (hFolder : ((env.GetItemAttributes pidlItem
      (SFGAO_FOLDER ||| SFGAO_STREAM ||| SFGAO_LINK)).2 &&& SFGAO_FOLDER) ≠ 0)
    (hStream : ((env.GetItemAttributes pidlItem
      (SFGAO_FOLDER ||| SFGAO_STREAM ||| SFGAO_LINK)).2 &&& SFGAO_STREAM) ≠ 0) :
    OpenItem env pidlItem bOpenInNewTab bOpenInNewWindow =
      if env.handleZipFiles = true then
        [OpenAction.OpenFolderItem pidlItem bOpenInNewTab bOpenInNewWindow]
      else [OpenAction.OpenFileItem pidlItem EMPTY_STRING] := by
  unfold OpenItem
  simp [hAttr, hFolder, hStream]

/-- Witness for C4: a zip file `[8, 7]` opened with the new-tab flag while
`handleZipFiles` is off goes to `OpenFileItem` with empty parameters. -/
theorem OpenItem_zip_witness :
    OpenItem (sampleShellEnv false (SFGAO_FOLDER ||| SFGAO_STREAM) S_OK 0) [8, 7] true false =
      [OpenAction.OpenFileItem [8, 7] ""] :=
  OpenItem_zip (sampleShellEnv false (SFGAO_FOLDER ||| SFGAO_STREAM) S_OK 0) [8, 7] true false
    (by decide) (by decide) (by decide)

/-- C5: when confirmation is on, more than one tab is open and the user answers
No, `OnClose` returns 1 and leaves the object as it is, without resetting the
plugin manager, killing the autosave timer, saving a setting or destroying the
main window; in every other case it returns 0 after calling every `Save` method
of the saver chosen by `m_bSavePreferencesToXMLFile` and destroying the main
window. -/
theorem OnClose_confirmation (env : CloseEnv) (st : AppState) :
    if env.confirmCloseTabs = true ∧ env.GetNumTabs > 1 ∧ env.response = IDNO then
      (OnClose env st).1 = 1 ∧ (OnClose env st).2.1 = st ∧
      AppEvent.PluginManagerReset ∉ (OnClose env st).2.2 ∧
      AppEvent.KillTimer ∉ (OnClose env st).2.2 ∧
      (∀ e ∈ (OnClose env st).2.2, e.isSave = false) ∧
      AppEvent.DestroyWindow ∉ (OnClose env st).2.2
    else
      (OnClose env st).1 = 0 ∧
      (OnClose env st).2.1 = (SaveAllSettings env.GetSelectedTabIndex
        { st with m_pluginManager := false }).1 ∧
      (∀ g : SettingsGroup, AppEvent.Save
        (if st.m_bSavePreferencesToXMLFile = true then LoadSaveKind.XML
          else LoadSaveKind.Registry) g ∈ (OnClose env st).2.2) ∧
      AppEvent.DestroyWindow ∈ (OnClose env st).2.2 := by
  by_cases hc : env.confirmCloseTabs = true <;> by_cases hn : env.GetNumTabs > 1 <;>
    by_cases hr : env.response = IDNO <;>
    simp only [hc, hn, hr, true_and, and_true, and_false, false_and, if_true, if_false,
      not_false_eq_true] <;>
    (unfold OnClose
     simp only [hc, hn, hr, decide_True, decide_False, Bool.and_true, Bool.and_false,
       Bool.false_and, Bool.true_and, if_true, if_false, Bool.false_eq_true])
  · simp [AppEvent.isSave]
  all_goals
    refine ⟨rfl, rfl, ?_, ?_⟩
    · intro g
      cases hx : st.m_bSavePreferencesToXMLFile <;> cases g <;>
        simp [OnClose_close, SaveAllSettings, hx]
    · simp [OnClose_close]

/-- Witness for C5: with three tabs and confirmation on, the answer No returns
1 with no call of `DestroyWindow`, and the answer Yes returns 0 after saving the
tabs to the registry and destroying the main window. -/
theorem OnClose_confirmation_witness :
    ((OnClose (sampleCloseEnv IDNO) sampleAppState).1 = 1 ∧
      AppEvent.DestroyWindow ∉ (OnClose (sampleCloseEnv IDNO) sampleAppState).2.2) ∧
    ((OnClose (sampleCloseEnv IDYES) sampleAppState).1 = 0 ∧
      AppEvent.Save LoadSaveKind.Registry SettingsGroup.Tabs ∈
        (OnClose (sampleCloseEnv IDYES) sampleAppState).2.2 ∧
      AppEvent.DestroyWindow ∈ (OnClose (sampleCloseEnv IDYES) sampleAppState).2.2) :=
  have hNo := Eq.mp (if_pos (by decide))
    (OnClose_confirmation (sampleCloseEnv IDNO) sampleAppState)
  have hYes := Eq.mp (if_neg (by decide))
    (OnClose_confirmation (sampleCloseEnv IDYES) sampleAppState)
  ⟨⟨hNo.1, hNo.2.2.2.2.2⟩, ⟨hYes.1, hYes.2.2.1 SettingsGroup.Tabs, hYes.2.2.2⟩⟩

/-- C6: a run of `OnClose` that closes resets the plugin manager before it calls
any `Save` method and before it destroys the main window, and leaves no plugin
manager behind; and no run at all, whatever the plugin manager was at the start,
reaches `DestroyWindow` while the plugin manager is alive. -/
theorem OnClose_plugins_destroyed_first (env : CloseEnv) (st : AppState) :
    ((OnClose env st).1 = 0 →
      (OnClose env st).2.1.m_pluginManager = false ∧
      ∃ before after, (OnClose env st).2.2 = before ++ AppEvent.PluginManagerReset :: after ∧
        (∀ e ∈ before, e.isSave = false ∧ e ≠ AppEvent.DestroyWindow) ∧
        (∃ e ∈ after, e.isSave = true) ∧ AppEvent.DestroyWindow ∈ after) ∧
    destroysWhileAlive true (OnClose env st).2.2 = false := by
  by_cases hc : env.confirmCloseTabs = true <;> by_cases hn : env.GetNumTabs > 1 <;>
    by_cases hr : env.response = IDNO <;>
    (unfold OnClose
     simp only [hc, hn, hr, decide_True, decide_False, Bool.and_true, Bool.and_false,
       Bool.false_and, Bool.true_and, if_true, if_false, Bool.false_eq_true])
  · exact ⟨fun h => absurd h (by decide), rfl⟩
  · refine ⟨fun _ => ⟨rfl, [AppEvent.LoadString, AppEvent.MessageBox], _, rfl, ?_, ?_, ?_⟩, ?_⟩
    · simp [AppEvent.isSave]
    · exact ⟨_, List.mem_cons_of_mem _ (List.mem_cons_self _ _), rfl⟩
    · simp [SaveAllSettings]
    · cases hx : st.m_bSavePreferencesToXMLFile <;>
        simp [OnClose_close, SaveAllSettings, hx, destroysWhileAlive]
  all_goals
    refine ⟨fun _ => ⟨rfl, [], _, rfl, ?_, ?_, ?_⟩, ?_⟩
    · simp
    · exact ⟨_, List.mem_cons_of_mem _ (List.mem_cons_self _ _), rfl⟩
    · simp [SaveAllSettings]
    · cases hx : st.m_bSavePreferencesToXMLFile <;>
        simp [OnClose_close, SaveAllSettings, hx, destroysWhileAlive]

/-- Witness for C6: the run in which the user answers Yes returns 0, ends
without a plugin manager and never destroys the window while one is alive. -/
theorem OnClose_plugins_destroyed_first_witness :
    (OnClose (sampleCloseEnv IDYES) sampleAppState).2.1.m_pluginManager = false ∧
    destroysWhileAlive true (OnClose (sampleCloseEnv IDYES) sampleAppState).2.2 = false :=
  have h := OnClose_plugins_destroyed_first (sampleCloseEnv IDYES) sampleAppState
  ⟨(h.1 (by decide)).1, h.2⟩

/-- The loop of `OnDrawClipboard` deghosts every file that the cut tab, if it
still exists, locates. -/
theorem OnDrawClipboard_deghost_complete (env : ClipEnv) (iCut : Int) (tab : Tab)
    (hTab : env.GetTabOptional iCut = some tab) (files : List String) (f : String)
    (hf : f ∈ files) (hLoc : env.LocateFileItemIndex tab f ≠ -1) :
    ClipEvent.DeghostItem iCut (env.LocateFileItemIndex tab f) ∈
      OnDrawClipboard_deghost env iCut files := by
  induction files with
  | nil => cases hf
  | cons g rest ih =>
    simp only [OnDrawClipboard_deghost, hTab, List.mem_append]
    rcases List.mem_cons.mp hf with h | h
    · subst h
      left
      simp [hLoc]
    · right
      exact ih h

/-- The loop of `OnDrawClipboard` makes no call other than `DeghostItem` on the
cut tab, which then exists, at the index of a file of the list that the tab
locates. -/
theorem OnDrawClipboard_deghost_sound (env : ClipEnv) (iCut : Int) (files : List String)
    (e : ClipEvent) (he : e ∈ OnDrawClipboard_deghost env iCut files) :
    ∃ tab f, env.GetTabOptional iCut = some tab ∧ f ∈ files ∧
      env.LocateFileItemIndex tab f ≠ -1 ∧
      e = ClipEvent.DeghostItem iCut (env.LocateFileItemIndex tab f) := by
  induction files with
  | nil => cases he
  | cons g rest ih =>
    simp only [OnDrawClipboard_deghost, List.mem_append] at he
    rcases he with h | h
    · cases hT : env.GetTabOptional iCut with
      | none => simp [hT] at h
      | some tab =>
        by_cases hL : env.LocateFileItemIndex tab g = -1
        · simp [hT, hL] at h
        · simp [hT, hL] at h
          exact ⟨tab, g, rfl, List.mem_cons_self _ _, hL, h⟩
    · obtain ⟨tab, f, h1, h2, h3, h4⟩ := ih h
      exact ⟨tab, f, h1, List.mem_cons_of_mem _ h2, h3, h4⟩

/-- C7 (counterexample): the data object of the program has left the clipboard,
`a.txt` and `gone.txt` were cut from tab 2, which still exists but no longer
shows `gone.txt`; `OnDrawClipboard` deghosts `a.txt` alone. -/
theorem OnDrawClipboard_deghost_counterexample :
    sampleClipState.m_pClipboardDataObject ≠ NULL ∧
    sampleClipEnv.OleIsCurrentClipboard sampleClipState.m_pClipboardDataObject = S_FALSE ∧
    sampleClipState.m_CutFileNameList = ["a.txt", "gone.txt"] ∧
    (OnDrawClipboard sampleClipEnv sampleClipState).2 =
      [ClipEvent.DeghostItem 2 0,
       ClipEvent.TreeView_SetItem 30 (TVIF_HANDLE ||| TVIF_STATE) 50 0 TVIS_CUT,
       ClipEvent.Release 1,
       ClipEvent.SendMessage 40 TB_ENABLEBUTTON 7 1,
       ClipEvent.SendMessage 60 WM_DRAWCLIPBOARD 0 0] := by
  decide

/-- C7 (amended): when `m_pClipboardDataObject` is not `NULL` and
`OleIsCurrentClipboard` returns `S_FALSE`, `OnDrawClipboard` deghosts, in the tab
they were cut from, exactly the files of `m_CutFileNameList` that this tab, if
it still exists, locates (index other than -1); it removes `TVIS_CUT` from the
cut treeview item if there is one; afterwards the cut file list is empty and
`m_hCutTreeViewItem` and `m_pClipboardDataObject` are `NULL`. In every other case
the three members are left unchanged. -/
theorem OnDrawClipboard_deghost_located (env : ClipEnv) (st : ClipState) :
    (st.m_pClipboardDataObject ≠ NULL ∧
        env.OleIsCurrentClipboard st.m_pClipboardDataObject = S_FALSE →
      (∀ f ∈ st.m_CutFileNameList, ∀ tab, env.GetTabOptional st.m_iCutTabInternal = some tab →
        env.LocateFileItemIndex tab f ≠ -1 →
        ClipEvent.DeghostItem st.m_iCutTabInternal (env.LocateFileItemIndex tab f) ∈
          (OnDrawClipboard env st).2) ∧
      (∀ iTab iItem, ClipEvent.DeghostItem iTab iItem ∈ (OnDrawClipboard env st).2 →
        iTab = st.m_iCutTabInternal ∧
        ∃ tab f, env.GetTabOptional st.m_iCutTabInternal = some tab ∧
          f ∈ st.m_CutFileNameList ∧ env.LocateFileItemIndex tab f ≠ -1 ∧
          iItem = env.LocateFileItemIndex tab f) ∧
      (st.m_hCutTreeViewItem ≠ NULL →
        ClipEvent.TreeView_SetItem env.m_hTreeView (TVIF_HANDLE ||| TVIF_STATE)
          st.m_hCutTreeViewItem 0 TVIS_CUT ∈ (OnDrawClipboard env st).2) ∧
      (OnDrawClipboard env st).1.m_CutFileNameList = [] ∧
      (OnDrawClipboard env st).1.m_hCutTreeViewItem = NULL ∧
      (OnDrawClipboard env st).1.m_pClipboardDataObject = NULL) ∧
    (¬ (st.m_pClipboardDataObject ≠ NULL ∧
        env.OleIsCurrentClipboard st.m_pClipboardDataObject = S_FALSE) →
      (OnDrawClipboard env st).1.m_CutFileNameList = st.m_CutFileNameList ∧
      (OnDrawClipboard env st).1.m_hCutTreeViewItem = st.m_hCutTreeViewItem ∧
      (OnDrawClipboard env st).1.m_pClipboardDataObject = st.m_pClipboardDataObject) := by
  constructor
  · rintro ⟨hObj, hOle⟩
    have hEv : (OnDrawClipboard env st).2 =
        OnDrawClipboard_deghost env st.m_iCutTabInternal st.m_CutFileNameList ++
        ((if st.m_hCutTreeViewItem ≠ NULL then
            [ClipEvent.TreeView_SetItem env.m_hTreeView (TVIF_HANDLE ||| TVIF_STATE)
              st.m_hCutTreeViewItem 0 TVIS_CUT] else []) ++
          [ClipEvent.Release st.m_pClipboardDataObject] ++
          [ClipEvent.SendMessage env.mainToolbar TB_ENABLEBUTTON env.TOOLBAR_PASTE
            (if !env.activeInVirtualFolder && env.IsClipboardFormatAvailable CF_HDROP
              then 1 else 0)] ++
          (if st.m_hNextClipboardViewer ≠ NULL then
            [ClipEvent.SendMessage st.m_hNextClipboardViewer WM_DRAWCLIPBOARD 0 0]
            else [])) := by
      unfold OnDrawClipboard
      by_cases hT : st.m_hCutTreeViewItem = NULL <;> simp [hObj, hOle, hT]
    have hSt : (OnDrawClipboard env st).1 =
        { st with m_CutFileNameList := [], m_hCutTreeViewItem := NULL,
                  m_pClipboardDataObject := NULL } := by
      unfold OnDrawClipboard
      by_cases hT : st.m_hCutTreeViewItem = NULL <;> simp [hObj, hOle, hT]
    refine ⟨?_, ?_, ?_, ?_, ?_, ?_⟩
    · intro f hf tab hTab hLoc
      rw [hEv]
      exact List.mem_append_left _
        (OnDrawClipboard_deghost_complete env _ tab hTab _ f hf hLoc)
    · intro iTab iItem hMem
      rw [hEv] at hMem
      rcases List.mem_append.mp hMem with h | h
      · obtain ⟨tab, f, h1, h2, h3, h4⟩ := OnDrawClipboard_deghost_sound env _ _ _ h
        injection h4 with h5 h6
        exact ⟨h5, tab, f, h1, h2, h3, h6⟩
      · exfalso
        by_cases hT : st.m_hCutTreeViewItem = NULL <;>
          by_cases hN : st.m_hNextClipboardViewer = NULL <;>
          simp [hT, hN] at h
    · intro hT
      rw [hEv]
      simp [hT]
    · rw [hSt]
    · rw [hSt]
    · rw [hSt]
  · intro hNot
    have hSt : (OnDrawClipboard env st).1 = st := by
      unfold OnDrawClipboard
      by_cases hObj : st.m_pClipboardDataObject = NULL
      · simp [hObj]
      · have hOle : ¬ env.OleIsCurrentClipboard st.m_pClipboardDataObject = S_FALSE :=
          fun h => hNot ⟨hObj, h⟩
        simp [hObj, hOle]
    rw [hSt]
    exact ⟨rfl, rfl, rfl⟩

/-- Witness for C7: in the sample state the located file `a.txt` is deghosted at
index 0 of tab 2 and the three members are cleared. -/
theorem OnDrawClipboard_deghost_located_witness :
    ClipEvent.DeghostItem 2 0 ∈ (OnDrawClipboard sampleClipEnv sampleClipState).2 ∧
    (OnDrawClipboard sampleClipEnv sampleClipState).1.m_CutFileNameList = [] ∧
    (OnDrawClipboard sampleClipEnv sampleClipState).1.m_hCutTreeViewItem = NULL ∧
    (OnDrawClipboard sampleClipEnv sampleClipState).1.m_pClipboardDataObject = NULL :=
  have h := (OnDrawClipboard_deghost_located sampleClipEnv sampleClipState).1
    ⟨by decide, by decide⟩
  ⟨h.1 "a.txt" (by decide) sampleTab (by decide) (by decide), h.2.2.2⟩

/-- C8: on `WM_CHANGECBCHAIN`, if the removed window `wParam` is the next viewer,
the next viewer becomes `lParam` and nothing is forwarded; otherwise the object
is unchanged and the message is forwarded to the next viewer, with the same
`wParam` and `lParam`, exactly when the next viewer is not `NULL`. No other
member changes in either case. -/
theorem OnChangeCBChain_keeps_chain (wParam lParam : Nat) (st : ClipState) :
    (wParam = st.m_hNextClipboardViewer →
      OnChangeCBChain wParam lParam st =
        ({ st with m_hNextClipboardViewer := lParam }, [])) ∧
    (wParam ≠ st.m_hNextClipboardViewer →
      (OnChangeCBChain wParam lParam st).1 = st ∧
      (st.m_hNextClipboardViewer ≠ NULL →
        (OnChangeCBChain wParam lParam st).2 =
          [ClipEvent.SendMessage st.m_hNextClipboardViewer WM_CHANGECBCHAIN wParam lParam]) ∧
      (st.m_hNextClipboardViewer = NULL → (OnChangeCBChain wParam lParam st).2 = [])) := by
  refine ⟨fun h => ?_, fun h => ⟨?_, fun hn => ?_, fun hn => ?_⟩⟩
  · unfold OnChangeCBChain
    rw [if_pos h]
  · unfold OnChangeCBChain
    rw [if_neg h]
    by_cases hn : st.m_hNextClipboardViewer = NULL
    · rw [if_neg (not_not.mpr hn)]
    · rw [if_pos hn]
  · unfold OnChangeCBChain
    rw [if_neg h, if_pos hn]
  · unfold OnChangeCBChain
    rw [if_neg h, if_neg (not_not.mpr hn)]

/-- Witness for C8: the window 60 leaves the chain with successor 70 while it is
the next viewer of the sample state, and 70 becomes the next viewer; the removal
of another window 61 is forwarded to 60. -/
theorem OnChangeCBChain_keeps_chain_witness :
    OnChangeCBChain 60 70 sampleClipState =
      ({ sampleClipState with m_hNextClipboardViewer := 70 }, []) ∧
    (OnChangeCBChain 61 70 sampleClipState).2 =
      [ClipEvent.SendMessage 60 WM_CHANGECBCHAIN 61 70] :=
  ⟨(OnChangeCBChain_keeps_chain 60 70 sampleClipState).1 (by decide),
   ((OnChangeCBChain_keeps_chain 61 70 sampleClipState).2 (by decide)).2.1 (by decide)⟩

/-- C9: when `TestConfigFileInternal` returns `TRUE`, `LoadAllSettings` makes
every one of its `Load` calls on the XML loader and sets
`m_bSavePreferencesToXMLFile`, and a `SaveAllSettings` that follows makes every
one of its `Save` calls on the XML saver; when it returns `FALSE`, every `Load`
call is made on the registry loader and `m_bSavePreferencesToXMLFile` keeps its
value. -/
theorem LoadAllSettings_source (hConfigFile : Option Nat) (st : AppState)
    (iSelectedTabIndex : Int) :
    ((TestConfigFileInternal hConfigFile).1 = true →
      (LoadAllSettings hConfigFile st).2.1 = LoadSaveKind.XML ∧
      (LoadAllSettings hConfigFile st).2.2 =
        [AppEvent.CloseHandle,
         AppEvent.Load LoadSaveKind.XML SettingsGroup.Bookmarks,
         AppEvent.Load LoadSaveKind.XML SettingsGroup.GenericSettings,
         AppEvent.Load LoadSaveKind.XML SettingsGroup.DefaultColumns,
         AppEvent.Load LoadSaveKind.XML SettingsGroup.ApplicationToolbar,
         AppEvent.Load LoadSaveKind.XML SettingsGroup.ToolbarInformation,
         AppEvent.Load LoadSaveKind.XML SettingsGroup.ColorRules,
         AppEvent.Load LoadSaveKind.XML SettingsGroup.DialogStates,
         AppEvent.ValidateLoadedSettings] ∧
      (LoadAllSettings hConfigFile st).1.m_bSavePreferencesToXMLFile = true ∧
      (∀ k g, AppEvent.Save k g ∈
          (SaveAllSettings iSelectedTabIndex (LoadAllSettings hConfigFile st).1).2 →
        k = LoadSaveKind.XML) ∧
      (∀ g, AppEvent.Save LoadSaveKind.XML g ∈
          (SaveAllSettings iSelectedTabIndex (LoadAllSettings hConfigFile st).1).2)) ∧
    ((TestConfigFileInternal hConfigFile).1 = false →
      (LoadAllSettings hConfigFile st).2.1 = LoadSaveKind.Registry ∧
      (LoadAllSettings hConfigFile st).2.2 =
        [AppEvent.Load LoadSaveKind.Registry SettingsGroup.Bookmarks,
         AppEvent.Load LoadSaveKind.Registry SettingsGroup.GenericSettings,
         AppEvent.Load LoadSaveKind.Registry SettingsGroup.DefaultColumns,
         AppEvent.Load LoadSaveKind.Registry SettingsGroup.ApplicationToolbar,
         AppEvent.Load LoadSaveKind.Registry SettingsGroup.ToolbarInformation,
         AppEvent.Load LoadSaveKind.Registry SettingsGroup.ColorRules,
         AppEvent.Load LoadSaveKind.Registry SettingsGroup.DialogStates,
         AppEvent.ValidateLoadedSettings] ∧
      (LoadAllSettings hConfigFile st).1.m_bSavePreferencesToXMLFile =
        st.m_bSavePreferencesToXMLFile) := by
  cases hConfigFile with
  | none =>
    refine ⟨fun h => absurd h (by decide), fun _ => ⟨rfl, rfl, rfl⟩⟩
  | some hFile =>
    refine ⟨fun _ => ⟨rfl, rfl, rfl, ?_, ?_⟩, fun h => Bool.noConfusion h⟩
    · intro k g hMem
      simp [SaveAllSettings, LoadAllSettings, TestConfigFile, TestConfigFileInternal] at hMem
      rcases hMem with h | h | h | h | h | h | h | h <;> exact h.1
    · intro g
      cases g <;> simp [SaveAllSettings, LoadAllSettings, TestConfigFile, TestConfigFileInternal]

/-- Witness for C9: with the configuration file open under handle 9, the sample
object, which saved to the registry, loads from XML and then saves to XML. -/
theorem LoadAllSettings_source_witness :
    (LoadAllSettings (some 9) sampleAppState).2.1 = LoadSaveKind.XML ∧
    (LoadAllSettings (some 9) sampleAppState).1.m_bSavePreferencesToXMLFile = true ∧
    AppEvent.Save LoadSaveKind.XML SettingsGroup.Tabs ∈
      (SaveAllSettings 1 (LoadAllSettings (some 9) sampleAppState).1).2 :=
  have h := (LoadAllSettings_source (some 9) sampleAppState 1).1 (by decide)
  ⟨h.1, h.2.2.1, h.2.2.2.2 SettingsGroup.Tabs⟩

/-- C10: for a tab of the container, `HandleDirectoryMonitoring` first stops the
monitor whose id the tab held; then, in a virtual folder, it starts no watch and
sets the monitor id of the tab to -1, and otherwise it starts exactly one watch,
on the current directory of the tab, tagged with the tab id and the folder index
of the tab, and sets the monitor id of the tab to the id that `WatchDirectory`
returned. Nothing else of the tab and no other tab changes. -/
theorem HandleDirectoryMonitoring_rewatch
    (WatchDirectory : String → Nat → Bool → DirectoryAltered_t → Int)
    (tabs : TabContainer) (iTabId : Int) (tab : Tab) (hTab : tabs iTabId = some tab) :
    ∃ tabs1 events, HandleDirectoryMonitoring WatchDirectory tabs iTabId = some (tabs1, events) ∧
      events.head? = some (DirMonEvent.StopDirectoryMonitor tab.shellBrowser.DirMonitorId) ∧
      (events.filter (fun e => !e.isWatch)).length = 1 ∧
      (∀ j, j ≠ iTabId → tabs1 j = tabs j) ∧
      (tab.shellBrowser.InVirtualFolder = true →
        events.filter DirMonEvent.isWatch = [] ∧
        tabs1 iTabId = some { tab with
          shellBrowser := { tab.shellBrowser with DirMonitorId := -1 } }) ∧
      (tab.shellBrowser.InVirtualFolder = false →
        events.filter DirMonEvent.isWatch =
          [DirMonEvent.WatchDirectory tab.shellBrowser.CurrentDirectory
            (FILE_NOTIFY_CHANGE_FILE_NAME ||| FILE_NOTIFY_CHANGE_SIZE |||
              FILE_NOTIFY_CHANGE_DIR_NAME ||| FILE_NOTIFY_CHANGE_ATTRIBUTES |||
              FILE_NOTIFY_CHANGE_LAST_WRITE ||| FILE_NOTIFY_CHANGE_LAST_ACCESS |||
              FILE_NOTIFY_CHANGE_CREATION ||| FILE_NOTIFY_CHANGE_SECURITY) false
            { iIndex := iTabId, iFolderIndex := tab.shellBrowser.FolderIndex }] ∧
        tabs1 iTabId = some { tab with
          shellBrowser := { tab.shellBrowser with
            DirMonitorId := WatchDirectory tab.shellBrowser.CurrentDirectory
              (FILE_NOTIFY_CHANGE_FILE_NAME ||| FILE_NOTIFY_CHANGE_SIZE |||
                FILE_NOTIFY_CHANGE_DIR_NAME ||| FILE_NOTIFY_CHANGE_ATTRIBUTES |||
                FILE_NOTIFY_CHANGE_LAST_WRITE ||| FILE_NOTIFY_CHANGE_LAST_ACCESS |||
                FILE_NOTIFY_CHANGE_CREATION ||| FILE_NOTIFY_CHANGE_SECURITY) false
              { iIndex := iTabId, iFolderIndex := tab.shellBrowser.FolderIndex } } }) := by
  by_cases hV : tab.shellBrowser.InVirtualFolder = true
  · refine ⟨_, _, by simp only [HandleDirectoryMonitoring, hTab, hV]; rfl, ?_⟩
    refine ⟨rfl, rfl, ?_, fun _ => ⟨rfl, ?_⟩, fun h => ?_⟩
    · intro j hj
      simp [hj]
    · simp [hV]
    · rw [hV] at h
      exact Bool.noConfusion h
  · have hF : tab.shellBrowser.InVirtualFolder = false := by simpa using hV
    refine ⟨_, _, by simp only [HandleDirectoryMonitoring, hTab, hF]; rfl, ?_⟩
    refine ⟨rfl, rfl, ?_, fun h => absurd h hV, fun _ => ⟨rfl, ?_⟩⟩
    · intro j hj
      simp [hj]
    · simp [hF]

/-- Witness for C10: the sample tab 2, watched under id 4 and not in a virtual
folder, has monitor 4 stopped and its monitor id set to 8, the id returned for
the new watch. -/
theorem HandleDirectoryMonitoring_rewatch_witness :
    ∃ tabs1 events, HandleDirectoryMonitoring (fun _ _ _ _ => 8) sampleTabs 2 =
        some (tabs1, events) ∧
      events.head? = some (DirMonEvent.StopDirectoryMonitor 4) ∧
      (events.filter DirMonEvent.isWatch).length = 1 ∧
      (tabs1 2).map (fun t => t.shellBrowser.DirMonitorId) = some 8 := by
  obtain ⟨tabs1, events, h1, h2, _, _, _, h6⟩ :=
    HandleDirectoryMonitoring_rewatch (fun _ _ _ _ => 8) sampleTabs 2 sampleTab (by decide)
  obtain ⟨h7, h8⟩ := h6 rfl
  exact ⟨tabs1, events, h1, h2, by rw [h7]; rfl, by rw [h8]; rfl⟩

/-- An `int` result that lies in the 32-bit range is the mathematical result. -/
theorem int32_eq_self (x : Int) (hLo : -2147483648 ≤ x) (hHi : x < 2147483648) :
    int32 x = x := by
  unfold int32
  norm_num
  omega

/-- C11: in `OnSize` the placement of the tab backing window, the first call of
an initialised window, depends on `showTabBarAtBottom` through its top
coordinate alone: whatever the window size and the configuration, its left, its
width, its height `TAB_WINDOW_HEIGHT` and its show/hide flag are the same for
both values of `showTabBarAtBottom`, and its top is the rebar height with the
bar at the top and `MainWindowHeight - IndentBottom - TAB_WINDOW_HEIGHT` with
the bar at the bottom. Before initialisation has finished no window is placed,
for either value. -/
theorem OnSize_tabBacking_top_only (env : SizeEnv) (MainWindowWidth MainWindowHeight : Int)
    (showTabBarAtBottom : Bool) :
    (OnSize { env with showTabBarAtBottom := showTabBarAtBottom }
        MainWindowWidth MainWindowHeight).2.head? =
      if env.m_InitializationFinished = true then
        some (SizeEvent.SetWindowPos env.m_hTabBacking env.m_hDisplayWindow
          (if env.extendTabControl = true then 0 else OnSize_IndentLeft env)
          (if showTabBarAtBottom = true then
            int32 (int32 (MainWindowHeight - OnSize_IndentBottom env) - env.TAB_WINDOW_HEIGHT)
           else OnSize_iIndentRebar env)
          (if env.extendTabControl = true then MainWindowWidth
           else int32 (MainWindowWidth - OnSize_IndentLeft env))
          env.TAB_WINDOW_HEIGHT
          (if env.m_bShowTabBar = true then SWP_SHOWWINDOW else SWP_HIDEWINDOW))
      else none := by
  cases hInit : env.m_InitializationFinished
  · simp [OnSize, hInit]
  · cases showTabBarAtBottom <;>
      simp [OnSize, hInit, OnSize_IndentLeft, OnSize_IndentBottom, OnSize_iIndentRebar]

/-- Witness for C11: a 1000 by 700 window with a rebar 60 high, 112 of bottom
indent and a folders pane 200 wide places the tab backing window at left 200,
width 800, height 24, shown, with top 60 for the bar at the top and 564 for the
bar at the bottom. -/
theorem OnSize_tabBacking_top_only_witness :
    (OnSize (sampleSizeEnv false) 1000 700).2.head? =
      some (SizeEvent.SetWindowPos 13 14 200 60 800 24 SWP_SHOWWINDOW) ∧
    (OnSize (sampleSizeEnv true) 1000 700).2.head? =
      some (SizeEvent.SetWindowPos 13 14 200 564 800 24 SWP_SHOWWINDOW) :=
  ⟨(OnSize_tabBacking_top_only (sampleSizeEnv false) 1000 700 false).trans (by decide),
   (OnSize_tabBacking_top_only (sampleSizeEnv false) 1000 700 true).trans (by decide)⟩

end Explorerplusplus
